import Mathlib

/-!
Verification development for the SkillBridge client repository.

Each section shallowly embeds one source file's logic:
* `src/pages/Admin.tsx` — submission review and earnings update,
* `src/pages/Auth.tsx` — sign-up/sign-in form validation and error display,
* `src/pages/Checkout.tsx` — payment-intent recording,
* `src/hooks/useAuth.tsx` — session façade (profile fetch, sign-in).

Backend tables are modelled as key-value maps (id → Option row); effectful
handlers return explicit effect traces and result records, with backend
outcomes (success / error result / thrown exception) passed as parameters.
-/

namespace SkillBridge

/-! ## Admin.tsx: submission review -/

/-- Status values a job submission can hold (`pending | approved | rejected`). -/
inductive SubmissionStatus
| pending
| approved
| rejected
deriving DecidableEq, Repr

/-- The decision passed to `handleReviewSubmission`: `'approved' | 'rejected'`. -/
inductive ReviewDecision
| approved
| rejected
deriving DecidableEq, Repr

/-- The submission status written for a given review decision. -/
def ReviewDecision.toStatus : ReviewDecision → SubmissionStatus
| .approved => .approved
| .rejected => .rejected

/-- A `job_submissions` row, restricted to the fields `handleReviewSubmission`
reads or writes. `reviewed_at` is modelled as a numeric timestamp. -/
structure Submission where
  id : String
  user_id : String
  payment_amount : Int
  status : SubmissionStatus
  admin_feedback : Option String
  reviewed_at : Option Nat
  reviewed_by : Option String
deriving DecidableEq, Repr

/-- A `profiles` row restricted to the earnings columns. The review handler
selects and writes only `approved_earnings, total_earnings, tasks_completed`
(all nullable); `pending_earnings` is carried to express frame conditions. -/
structure ProfileEarnings where
  id : String
  approved_earnings : Option Int
  total_earnings : Option Int
  pending_earnings : Option Int
  tasks_completed : Option Int
deriving DecidableEq, Repr

/-- JavaScript `x || 0` on a nullable number (0 and null both map to 0). -/
def jsOrZero : Option Int → Int
| none => 0
| some v => v

/-- Backend state visible to the admin review handler: the `job_submissions`
and `profiles` tables, keyed by row id. -/
structure AdminDB where
  submissions : String → Option Submission
  profiles : String → Option ProfileEarnings

/-- The submission-row update issued first by `handleReviewSubmission`:
sets `status`, `admin_feedback` (entered feedback or null), `reviewed_at`,
`reviewed_by`; all other columns are untouched. -/
def updatedSubmissionRow (s : Submission) (decision : ReviewDecision)
    (feedback : Option String) (now : Nat) (reviewerId : String) : Submission :=
  { s with
    status := decision.toStatus
    admin_feedback := feedback
    reviewed_at := some now
    reviewed_by := some reviewerId }

/-- `handleReviewSubmission` (Admin.tsx, success path): update the selected
submission row with the decision, then — only when the decision is
`approved` — fetch the worker's profile row and, if present, write back
`approved_earnings`, `total_earnings` and `tasks_completed` incremented
from their (null-coalesced) current values. -/
def handleReviewSubmission (db : AdminDB) (sel : Submission)
    (decision : ReviewDecision) (feedback : Option String)
    (now : Nat) (reviewerId : String) : AdminDB :=
  let db1 : AdminDB :=
    { db with
      submissions := fun i =>
        if i = sel.id then
          (db.submissions i).map
            (fun s => updatedSubmissionRow s decision feedback now reviewerId)
        else db.submissions i }
  match decision with
  | .rejected => db1
  | .approved =>
    match db1.profiles sel.user_id with
    | none => db1
    | some profile =>
      let newApproved := jsOrZero profile.approved_earnings + sel.payment_amount
      let newTotal := jsOrZero profile.total_earnings + sel.payment_amount
      let newTasks := jsOrZero profile.tasks_completed + 1
      { db1 with
        profiles := fun i =>
          if i = sel.user_id then
            (db1.profiles i).map
              (fun p =>
                { p with
                  approved_earnings := some newApproved
                  total_earnings := some newTotal
                  tasks_completed := some newTasks })
          else db1.profiles i }

/-! ## Auth.tsx: sign-up validation -/

/-- JavaScript regex class `[a-z]`. -/
def jsLower (c : Char) : Bool := 'a' ≤ c && c ≤ 'z'

/-- JavaScript regex class `[A-Z]`. -/
def jsUpper (c : Char) : Bool := 'A' ≤ c && c ≤ 'Z'

/-- JavaScript regex class `\d`. -/
def jsDigitCh (c : Char) : Bool := '0' ≤ c && c ≤ '9'

/-- The complexity regex of `signUpSchema`:
`/^(?=.*[a-z])(?=.*[A-Z])(?=.*\d)/` — three anchored lookaheads, i.e. the
string contains a lowercase letter, an uppercase letter and a digit. -/
def complexityRegexOk (pw : String) : Bool :=
  pw.toList.any jsLower && pw.toList.any jsUpper && pw.toList.any jsDigitCh

/-- The sign-up form state fields validated by `signUpSchema`. -/
structure SignUpForm where
  fullName : String
  email : String
  password : String
  confirmPassword : String
  acceptTerms : Bool

/-- `signUpSchema.safeParse` issue list (field path, message). The base object
checks all run and collect issues; the object-level `.refine` comparing
`password` and `confirmPassword` runs only when the base parse succeeded
(zod semantics). The external `.email()` check is the library's own regex,
abstracted as the `emailValid` oracle. -/
def signUpBaseIssues (emailValid : String → Bool) (f : SignUpForm) :
    List (String × String) :=
  (if f.fullName.length < 2 then
    [("fullName", "Name must be at least 2 characters")] else []) ++
  (if emailValid f.email then [] else
    [("email", "Invalid email address")]) ++
  (if f.password.length < 6 then
    [("password", "Password must be at least 6 characters")] else []) ++
  (if complexityRegexOk f.password then [] else
    [("password",
      "Password must contain at least one uppercase letter, one lowercase letter, and one number")]) ++
  (if f.acceptTerms then [] else
    [("acceptTerms", "You must accept the terms and conditions")])

/-- The full issue list of `signUpSchema.safeParse`: the base issues, or —
only when those are empty — the object-level `.refine` check comparing
`password` with `confirmPassword`. -/
def signUpSchemaIssues (emailValid : String → Bool) (f : SignUpForm) :
    List (String × String) :=
  if (signUpBaseIssues emailValid f).isEmpty then
    (if f.password = f.confirmPassword then [] else
      [("confirmPassword", "Passwords do not match")])
  else signUpBaseIssues emailValid f

/-- Result of the sign-up branch of `handleSubmit` in Auth.tsx: the field
errors committed via `setErrors`, and whether the network call `signUp`
was reached. -/
structure SignUpSubmitRet where
  fieldErrors : List (String × String)
  signUpCalled : Bool
deriving Repr

/-- The sign-up branch of `handleSubmit`: run `signUpSchema.safeParse`; on
failure set per-field errors and return before calling `signUp`; on success
invoke `signUp`. -/
def handleSubmitSignUp (emailValid : String → Bool) (f : SignUpForm) :
    SignUpSubmitRet :=
  let issues := signUpSchemaIssues emailValid f
  if issues.isEmpty then { fieldErrors := [], signUpCalled := true }
  else { fieldErrors := issues, signUpCalled := false }

/-! ## useAuth.tsx: session façade -/

/-- Boolean test that `needle` occurs as a contiguous run of `hay`
(JavaScript `hay.includes(needle)`), on character lists. -/
def startsWithChars : List Char → List Char → Bool
| [], _ => true
| _ :: _, [] => false
| a :: as, b :: bs => a = b && startsWithChars as bs

/-- `hay.includes(needle)` over character lists. -/
def hasSubChars (needle : List Char) : List Char → Bool
| [] => needle.isEmpty
| c :: rest => startsWithChars needle (c :: rest) || hasSubChars needle rest

/-- JavaScript `hay.includes(needle)` on strings. -/
def strContains (hay needle : String) : Bool :=
  hasSubChars needle.toList hay.toList

/-- The `membership_tier` enum of the `Profile` interface. -/
inductive MembershipTier
| none
| regular
| pro
| vip
deriving DecidableEq, Repr

/-- The `Profile` interface of useAuth.tsx. Numeric columns are modelled as
integers, nullable columns as options. -/
structure Profile where
  id : String
  email : String
  full_name : Option String
  avatar_url : Option String
  membership_tier : MembershipTier
  membership_expires_at : Option String
  daily_tasks_used : Int
  last_task_reset_date : String
  total_earnings : Int
  pending_earnings : Int
  approved_earnings : Int
  tasks_completed : Int
  rating : Option Int
  created_at : String
  updated_at : String
deriving DecidableEq, Repr

/-- The façade's state: `user` and `session` are abstracted to the user id
and an opaque session token; `cachedUserData` holds the profile/admin memo
(stored only when a profile row was returned). -/
structure AuthState where
  user : Option String
  session : Option String
  profile : Option Profile
  isAdmin : Bool
  isLoading : Bool
  cache : Option (Profile × Bool)
deriving DecidableEq, Repr

/-- The client-side timeout (ms) raced against the combined profile+role
fetch: `setTimeout(() => resolve(null), 5000)`. -/
def fetchTimeoutMs : Nat := 5000

/-- Outcome of the raced pair of parallel requests in `fetchUserData`:
the 5-second timeout wins, the combined `Promise.all` result arrives
(profile row option, admin-role row present?), or the await throws. -/
inductive FetchOutcome
| timeout
| completed (profileData : Option Profile) (roleData : Bool)
| thrown
deriving DecidableEq, Repr

/-- The non-cached path of `fetchUserData`: race the combined result against
the timeout; on timeout or exception, log and return with no state change;
on completion, commit the profile (caching it together with the admin flag)
when present, and always commit the admin flag. -/
def fetchUserDataFresh (s : AuthState) (outcome : FetchOutcome) : AuthState :=
  match outcome with
  | .timeout => s
  | .thrown => s
  | .completed profileData roleData =>
    let s1 :=
      match profileData with
      | some p => { s with profile := some p, cache := some (p, roleData) }
      | none => s
    { s1 with isAdmin := roleData }

/-- `fetchUserData(userId)` of useAuth.tsx: if `cachedUserData` is set and the
current user matches `userId`, commit the cached memo and return; otherwise
run the raced parallel fetch. -/
def fetchUserData (s : AuthState) (userId : String) (outcome : FetchOutcome) :
    AuthState :=
  match s.cache with
  | some (p, adm) =>
    if s.user = some userId then { s with profile := some p, isAdmin := adm }
    else fetchUserDataFresh s outcome
  | none => fetchUserDataFresh s outcome

/-- Outcome of `supabase.auth.signInWithPassword`: an error result with a
message, a data object whose `session` may be null (carrying a session token
and its user id when present), or a thrown exception. -/
inductive SignInOutcome
| failed (message : String)
| ok (sessionData : Option (String × String))
| thrown (message : String)
deriving DecidableEq, Repr

/-- What a `signIn` call produces: the final façade state, the returned
`{ error }` value, the successive values passed to `setIsLoading`, and the
user ids for which `fetchUserData` was invoked. -/
structure SignInRet where
  state : AuthState
  error : Option String
  loadingTrace : List Bool
  fetchedUserIds : List String
deriving DecidableEq, Repr

/-- `signIn(email, password)` of useAuth.tsx: set loading, clear the cache,
delegate to the backend; on an error result release loading and return the
error (rewriting a message containing "Email not confirmed"); on success
populate session/user, await `fetchUserData`, release loading and return
`{ error: null }`; a thrown exception is caught, loading is released, and
the exception is returned as the error value. -/
def signIn (s : AuthState) (outcome : SignInOutcome) (fo : FetchOutcome) :
    SignInRet :=
  let s0 := { s with isLoading := true, cache := none }
  match outcome with
  | .failed msg =>
    let s1 := { s0 with isLoading := false }
    if strContains msg "Email not confirmed" then
      { state := s1
        error := some "Please verify your email first. Check your inbox."
        loadingTrace := [true, false]
        fetchedUserIds := [] }
    else
      { state := s1, error := some msg
        loadingTrace := [true, false], fetchedUserIds := [] }
  | .ok none =>
    { state := { s0 with isLoading := false }, error := none
      loadingTrace := [true, false], fetchedUserIds := [] }
  | .ok (some (tok, uid)) =>
    let s1 := { s0 with session := some tok, user := some uid }
    let s2 := fetchUserData s1 uid fo
    { state := { s2 with isLoading := false }, error := none
      loadingTrace := [true, false], fetchedUserIds := [uid] }
  | .thrown msg =>
    { state := { s0 with isLoading := false }, error := some msg
      loadingTrace := [true, false], fetchedUserIds := [] }

/-- The sign-in error branch of `handleSubmit` in Auth.tsx: the `apiError`
text displayed for the error value returned by `signIn` (JavaScript
`error.message || fallback` treats the empty message as falsy). -/
def signInApiErrorShown (err : Option String) : Option String :=
  match err with
  | none => none
  | some m =>
    if strContains m "Invalid login" then
      some "Invalid email or password. Please try again."
    else if strContains m "Email not confirmed" then
      some "Please verify your email address before logging in."
    else if m = "" then some "Failed to sign in. Please try again."
    else some m

/-- Count of adjacent true→false steps in a boolean trace. -/
def downTransitions : List Bool → Nat
| [] => 0
| [_] => 0
| a :: b :: rest => (if a && !b then 1 else 0) + downTransitions (b :: rest)

/-! ## Checkout.tsx: payment-intent recorder -/

/-- One entry of the `planDetails` object. -/
structure Plan where
  name : String
  price : Int
  tier : String
deriving DecidableEq, Repr

/-- `planDetails` plus the lookup `plan in planDetails ? planDetails[plan] : null`
that computes `currentPlan`. -/
def planDetails : String → Option Plan
| "regular" => some { name := "Regular", price := 15, tier := "regular" }
| "pro" => some { name := "Pro", price := 25, tier := "pro" }
| "vip" => some { name := "VIP", price := 49, tier := "vip" }
| _ => none

/-- A JavaScript `Date` at day granularity (`month` is 0-based as in JS). -/
structure JsDate where
  year : Int
  month : Nat
  day : Nat
deriving DecidableEq, Repr

/-- JavaScript leap-year rule used by `Date`. -/
def isLeapYear (y : Int) : Bool :=
  (y % 4 == 0 && y % 100 != 0) || y % 400 == 0

/-- Days in a (0-based) month of a given year. -/
def daysInMonth (year : Int) (month : Nat) : Nat :=
  match month with
  | 1 => if isLeapYear year then 29 else 28
  | 3 => 30
  | 5 => 30
  | 8 => 30
  | 10 => 30
  | _ => 31

/-- `expiresAt.setMonth(expiresAt.getMonth() + 1)`: advance the month index by
one (rolling the year), then normalize a day-of-month overflow the way the
JavaScript `Date` does (e.g. Jan 31 → "Feb 31" → Mar 3). A single cascade
step suffices since the overflow is at most 3 days. -/
def jsSetMonthPlusOne (d : JsDate) : JsDate :=
  let m := d.month + 1
  let y := d.year + (m / 12 : Nat)
  let m2 := m % 12
  if d.day ≤ daysInMonth y m2 then { year := y, month := m2, day := d.day }
  else if m2 = 11 then
    { year := y + 1, month := 0, day := d.day - daysInMonth y m2 }
  else
    { year := y, month := m2 + 1, day := d.day - daysInMonth y m2 }

/-- Linear month index (year*12 + month) of a date. -/
def monthIndex (d : JsDate) : Int := d.year * 12 + (d.month : Int)

/-- The `transactions` row inserted by `handlePayNow`. -/
structure TransactionRow where
  user_id : String
  txType : String
  amount : Int
  status : String
  description : String
  reference_id : String
deriving DecidableEq, Repr

/-- The `profiles` update issued by `handlePayNow`. -/
structure ProfileUpdateRow where
  membership_tier : String
  membership_expires_at : JsDate
  daily_tasks_used : Int
  membership_status : String
deriving DecidableEq, Repr

/-- Backend outcome of one awaited row-storage call: success, an error
result value, or a thrown exception. -/
inductive DbOutcome
| ok
| errResult
| exn
deriving DecidableEq, Repr

/-- Observable effects of `handlePayNow`, in program order. -/
inductive PayEffect
| insertTransaction (row : TransactionRow)
| updateProfile (row : ProfileUpdateRow)
| refreshProfileCall
| toastPaymentInstructions
| scheduleRedirect (delayMs : Nat)
deriving DecidableEq, Repr

/-- What one `handlePayNow` call produces: the ordered effect trace, the
console warnings, the `error` state committed by the outer catch (if any),
and the `paymentInitiated` flag. -/
structure PayResult where
  effects : List PayEffect
  warnings : List String
  errorShown : Option String
  paymentInitiated : Bool
deriving Repr

/-- Console warning produced by the transaction-insert try/catch. -/
def insertWarningsFor : DbOutcome → List String
| .ok => []
| .errResult => ["Transaction record not created"]
| .exn => ["Database operation failed"]

/-- Console warning produced by the profile-update try/catch. -/
def updateWarningsFor : DbOutcome → List String
| .ok => []
| .errResult => ["Profile update failed"]
| .exn => ["Profile update failed"]

/-- Whether `refreshProfile()` is reached after the profile update: a thrown
update jumps to the catch and skips it; an error result does not throw. -/
def refreshTailFor : DbOutcome → List PayEffect
| .exn => []
| .ok => [PayEffect.refreshProfileCall]
| .errResult => [PayEffect.refreshProfileCall]

/-- `handlePayNow` of Checkout.tsx, parametrized by the backend outcomes of
the transaction insert and the profile update. With no user or no valid plan
it returns immediately. Otherwise it inserts one transaction row (failure
logged inside its own try/catch), issues one profile update followed by
`refreshProfile()` (both inside a second try/catch, so a thrown update
skips the refresh), and unconditionally shows the payment-instructions
toast and schedules the 10-second redirect. Neither backend failure reaches
the outer catch, so `errorShown` stays null. -/
def handlePayNow (user : Option String) (currentPlan : Option Plan)
    (now : Nat) (today : JsDate) (insertOut updateOut : DbOutcome) :
    PayResult :=
  match user, currentPlan with
  | some uid, some p =>
    let tx : TransactionRow :=
      { user_id := uid
        txType := "subscription"
        amount := -p.price
        status := "pending"
        description := p.name ++ " Membership - USDT Payment Pending"
        reference_id := "usdt_" ++ toString now ++ "_" ++ uid }
    let upd : ProfileUpdateRow :=
      { membership_tier := p.tier
        membership_expires_at := jsSetMonthPlusOne today
        daily_tasks_used := 0
        membership_status := "pending_payment" }
    { effects :=
        PayEffect.insertTransaction tx ::
          PayEffect.updateProfile upd ::
            refreshTailFor updateOut ++
              [PayEffect.toastPaymentInstructions,
               PayEffect.scheduleRedirect 10000]
      warnings := insertWarningsFor insertOut ++ updateWarningsFor updateOut
      errorShown := none
      paymentInitiated := true }
  | _, _ =>
    { effects := [], warnings := [], errorShown := none
      paymentInitiated := false }

/-- Is this effect a transaction insert? -/
def PayEffect.isInsert : PayEffect → Bool
| .insertTransaction _ => true
| _ => false

/-- Is this effect a profile update? -/
def PayEffect.isUpdate : PayEffect → Bool
| .updateProfile _ => true
| _ => false

/-! ## Theorems for the claims -/

/-- C1: approving a submission with payment amount `p` against a worker
profile holding `approved_earnings = a`, `total_earnings = t`,
`tasks_completed = c` updates the profile to `a + p`, `t + p`, `c + 1`
(other columns untouched); in particular 10/50/100/3 yields 60/110/4. -/
theorem approve_updates_earnings (db : AdminDB) (sel : Submission)
    (feedback : Option String) (now : Nat) (rid : String)
    (prof : ProfileEarnings) (a t c : Int)
    (hp : db.profiles sel.user_id = some prof)
    (ha : prof.approved_earnings = some a)
    (ht : prof.total_earnings = some t)
    (hc : prof.tasks_completed = some c) :
    (handleReviewSubmission db sel .approved feedback now rid).profiles
        sel.user_id =
      some
        { prof with
          approved_earnings := some (a + sel.payment_amount)
          total_earnings := some (t + sel.payment_amount)
          tasks_completed := some (c + 1) } := by
  simp [handleReviewSubmission, hp, ha, ht, hc, jsOrZero]

/-- Concrete row used to witness the earnings-update theorems. -/
def profW : ProfileEarnings :=
  { id := "w1", approved_earnings := some 50, total_earnings := some 100
    pending_earnings := some 7, tasks_completed := some 3 }

/-- Worker database used to witness the earnings-update theorem. -/
def dbW : AdminDB :=
  { submissions := fun _ => none
    profiles := fun i => if i = "w1" then some profW else none }

/-- Submission used to witness the earnings-update theorem. -/
def subW : Submission :=
  { id := "s1", user_id := "w1", payment_amount := 10
    status := .pending, admin_feedback := none
    reviewed_at := none, reviewed_by := none }

/-- Witness for C1 at payment 10 and profile 50/100/3: result 60/110/4. -/
theorem approve_updates_earnings_witness :
    (handleReviewSubmission dbW subW .approved none 0 "adm").profiles "w1" =
      some
        { id := "w1", approved_earnings := some 60, total_earnings := some 110
          pending_earnings := some 7, tasks_completed := some 4 } := by
  have h := approve_updates_earnings dbW subW none 0 "adm" profW 50 100 3
    (by decide) rfl rfl rfl
  exact h.trans (by decide)

/-- C2: reviewing a submission as rejected leaves the whole `profiles` table
(hence every earnings field and `tasks_completed`) unchanged, and rewrites
only the selected submission row, changing exactly `status`,
`admin_feedback`, `reviewed_at` and `reviewed_by`. -/
theorem reject_preserves_profile (db : AdminDB) (sel : Submission)
    (feedback : Option String) (now : Nat) (rid : String) :
    (handleReviewSubmission db sel .rejected feedback now rid).profiles =
        db.profiles ∧
    (handleReviewSubmission db sel .rejected feedback now rid).submissions =
      (fun i =>
        if i = sel.id then
          (db.submissions i).map
            (fun s => updatedSubmissionRow s .rejected feedback now rid)
        else db.submissions i) ∧
    (∀ s : Submission,
      (updatedSubmissionRow s .rejected feedback now rid).id = s.id ∧
      (updatedSubmissionRow s .rejected feedback now rid).user_id =
        s.user_id ∧
      (updatedSubmissionRow s .rejected feedback now rid).payment_amount =
        s.payment_amount ∧
      (updatedSubmissionRow s .rejected feedback now rid).status =
        .rejected ∧
      (updatedSubmissionRow s .rejected feedback now rid).admin_feedback =
        feedback ∧
      (updatedSubmissionRow s .rejected feedback now rid).reviewed_at =
        some now ∧
      (updatedSubmissionRow s .rejected feedback now rid).reviewed_by =
        some rid) := by
  exact ⟨rfl, rfl, fun s => ⟨rfl, rfl, rfl, rfl, rfl, rfl, rfl⟩⟩

/-- C3 (amended): `handleReviewSubmission` writes the chosen decision to the
selected submission row without inspecting its current status, so any prior
status — including `approved` and `rejected` — is overwritten. -/
theorem review_sets_status_unconditionally (db : AdminDB) (sel : Submission)
    (decision : ReviewDecision) (feedback : Option String) (now : Nat)
    (rid : String) :
    (handleReviewSubmission db sel decision feedback now rid).submissions
        sel.id =
      (db.submissions sel.id).map
        (fun s => updatedSubmissionRow s decision feedback now rid) := by
  cases decision with
  | rejected => simp [handleReviewSubmission]
  | approved =>
    cases h : db.profiles sel.user_id with
    | none => simp [handleReviewSubmission, h]
    | some prof => simp [handleReviewSubmission, h]

/-- Submission already approved, used to refute the no-reversal claim. -/
def subRev : Submission :=
  { id := "s1", user_id := "w1", payment_amount := 10
    status := .approved, admin_feedback := none
    reviewed_at := none, reviewed_by := none }

/-- Database holding the already-approved submission `subRev`. -/
def dbRev : AdminDB :=
  { submissions := fun i => if i = "s1" then some subRev else none
    profiles := fun _ => none }

/-- C3 counterexample: a submission whose status is already `approved` is
moved to `rejected` by `handleReviewSubmission('rejected')` — the program
does reverse review decisions (the admin view offers re-review of
non-pending submissions as "Update Review"). -/
theorem approved_submission_can_be_rejected :
    (dbRev.submissions "s1").map Submission.status =
        some SubmissionStatus.approved ∧
    ((handleReviewSubmission dbRev subRev ReviewDecision.rejected none 5
          "adm").submissions "s1").map Submission.status =
        some SubmissionStatus.rejected ∧
    SubmissionStatus.approved ≠ SubmissionStatus.rejected := by
  decide

/-- C10: when the fetched profile has null `approved_earnings`,
`total_earnings` and `tasks_completed`, approval treats each as 0 and writes
`payment_amount`, `payment_amount` and 1. -/
theorem approve_defaults_missing_earnings (db : AdminDB) (sel : Submission)
    (feedback : Option String) (now : Nat) (rid : String)
    (prof : ProfileEarnings)
    (hp : db.profiles sel.user_id = some prof)
    (ha : prof.approved_earnings = none)
    (ht : prof.total_earnings = none)
    (hc : prof.tasks_completed = none) :
    (handleReviewSubmission db sel .approved feedback now rid).profiles
        sel.user_id =
      some
        { prof with
          approved_earnings := some sel.payment_amount
          total_earnings := some sel.payment_amount
          tasks_completed := some 1 } := by
  simp [handleReviewSubmission, hp, ha, ht, hc, jsOrZero]

/-- Profile row with all earnings columns null, witnessing C10. -/
def profNull : ProfileEarnings :=
  { id := "w2", approved_earnings := none, total_earnings := none
    pending_earnings := none, tasks_completed := none }

/-- Database holding the all-null profile `profNull`. -/
def dbNull : AdminDB :=
  { submissions := fun _ => none
    profiles := fun i => if i = "w2" then some profNull else none }

/-- Submission by the worker with the all-null profile. -/
def subNull : Submission :=
  { id := "s2", user_id := "w2", payment_amount := 25
    status := .pending, admin_feedback := none
    reviewed_at := none, reviewed_by := none }

/-- Witness for C10: payment 25 against an all-null profile yields 25/25/1. -/
theorem approve_defaults_missing_earnings_witness :
    (handleReviewSubmission dbNull subNull .approved none 0 "adm").profiles
        "w2" =
      some
        { id := "w2", approved_earnings := some 25, total_earnings := some 25
          pending_earnings := none, tasks_completed := some 1 } := by
  have h := approve_defaults_missing_earnings dbNull subNull none 0 "adm"
    profNull (by decide) rfl rfl rfl
  exact h.trans (by decide)

/-- C4: whenever the password fails the complexity requirement (length ≥ 6
with an uppercase letter, a lowercase letter and a digit), the sign-up
branch of `handleSubmit` records a field-level error on `password` and
returns without ever calling `signUp`, for any email-validity oracle and
any other field contents. -/
theorem weak_password_blocks_signup (emailValid : String → Bool)
    (f : SignUpForm)
    (h : ¬ (6 ≤ f.password.length ∧ complexityRegexOk f.password = true)) :
    (handleSubmitSignUp emailValid f).signUpCalled = false ∧
    ∃ msg, ("password", msg) ∈ (handleSubmitSignUp emailValid f).fieldErrors := by
  have hmem : ∃ msg, ("password", msg) ∈ signUpBaseIssues emailValid f := by
    by_cases hlen : f.password.length < 6
    · exact ⟨"Password must be at least 6 characters",
        by simp [signUpBaseIssues, hlen]⟩
    · have hreg : complexityRegexOk f.password = false := by
        rcases Bool.eq_false_or_eq_true (complexityRegexOk f.password) with
          h' | h'
        · exact absurd ⟨Nat.le_of_not_lt hlen, h'⟩ h
        · exact h'
      exact ⟨"Password must contain at least one uppercase letter, one lowercase letter, and one number",
        by simp [signUpBaseIssues, hreg]⟩
  obtain ⟨msg, hmsg⟩ := hmem
  have hne : (signUpBaseIssues emailValid f).isEmpty = false := by
    cases hl : signUpBaseIssues emailValid f with
    | nil => rw [hl] at hmsg; simp at hmsg
    | cons a as => simp
  refine ⟨?_, ⟨msg, ?_⟩⟩
  · simp [handleSubmitSignUp, signUpSchemaIssues, hne]
  · simpa [handleSubmitSignUp, signUpSchemaIssues, hne] using hmsg

/-- Sign-up form whose password has no uppercase letter, no digit, and
length below 6. -/
def formWeak : SignUpForm :=
  { fullName := "John Doe", email := "j@x.io", password := "abc"
    confirmPassword := "abc", acceptTerms := true }

/-- Witness for C4: the weak-password form is rejected with a password
field error and `signUp` is never called, even with an accepting email
oracle. -/
theorem weak_password_blocks_signup_witness :
    (handleSubmitSignUp (fun _ => true) formWeak).signUpCalled = false ∧
    ∃ msg, ("password", msg) ∈
      (handleSubmitSignUp (fun _ => true) formWeak).fieldErrors :=
  weak_password_blocks_signup (fun _ => true) formWeak (by decide)

/-- Every month length is at least 28 days. -/
lemma daysInMonth_ge (y : Int) (m : Nat) : 28 ≤ daysInMonth y m := by
  unfold daysInMonth
  split <;> first | omega | (split <;> omega)

/-- For a day of month at most 28, `setMonth(getMonth() + 1)` advances the
linear month index by exactly one (no day-overflow cascade). -/
lemma monthIndex_jsSetMonthPlusOne (d : JsDate) (hd : d.day ≤ 28) :
    monthIndex (jsSetMonthPlusOne d) = monthIndex d + 1 := by
  simp only [jsSetMonthPlusOne]
  split
  · simp only [monthIndex]
    push_cast
    omega
  · next hcond => exact absurd (hd.trans (daysInMonth_ge _ _)) hcond

/-- C5: for an authenticated user and a valid plan, `handlePayNow` issues
exactly one transaction insert — amount the negated plan price, status
"pending", reference id built from the timestamp and the user id — and
exactly one profile update setting the plan tier, an expiry one calendar
month ahead (`setMonth(getMonth() + 1)`; exactly one month index ahead
whenever the day of month fits), zero `daily_tasks_used`, and membership
status "pending_payment". -/
theorem payNow_records_intent (planKey : String) (p : Plan) (uid : String)
    (now : Nat) (today : JsDate) (insertOut updateOut : DbOutcome)
    (hplan : planDetails planKey = some p) :
    ((handlePayNow (some uid) (some p) now today insertOut
          updateOut).effects.filter PayEffect.isInsert =
      [PayEffect.insertTransaction
        { user_id := uid
          txType := "subscription"
          amount := -p.price
          status := "pending"
          description := p.name ++ " Membership - USDT Payment Pending"
          reference_id := "usdt_" ++ toString now ++ "_" ++ uid }]) ∧
    ((handlePayNow (some uid) (some p) now today insertOut
          updateOut).effects.filter PayEffect.isUpdate =
      [PayEffect.updateProfile
        { membership_tier := p.tier
          membership_expires_at := jsSetMonthPlusOne today
          daily_tasks_used := 0
          membership_status := "pending_payment" }]) ∧
    (today.day ≤ 28 →
      monthIndex (jsSetMonthPlusOne today) = monthIndex today + 1) := by
  refine ⟨?_, ?_, monthIndex_jsSetMonthPlusOne today⟩
  · cases updateOut <;>
      simp [handlePayNow, PayEffect.isInsert, PayEffect.isUpdate,
        refreshTailFor, List.filter]
  · cases updateOut <;>
      simp [handlePayNow, PayEffect.isInsert, PayEffect.isUpdate,
        refreshTailFor, List.filter]

/-- A date safely inside a month, used to witness the checkout theorems. -/
def todayW : JsDate := { year := 2026, month := 0, day := 15 }

/-- Witness for C5 at the "pro" plan: the single insert and single update
rows, and the expiry month index advancing by one (Jan 2026 → Feb 2026). -/
theorem payNow_records_intent_witness :
    ((handlePayNow (some "u1") (some { name := "Pro", price := 25, tier := "pro" })
          1700 todayW .ok .ok).effects.filter PayEffect.isInsert =
      [PayEffect.insertTransaction
        { user_id := "u1"
          txType := "subscription"
          amount := -25
          status := "pending"
          description := "Pro Membership - USDT Payment Pending"
          reference_id := "usdt_1700_u1" }]) ∧
    monthIndex (jsSetMonthPlusOne todayW) = monthIndex todayW + 1 := by
  have h := payNow_records_intent "pro"
    { name := "Pro", price := 25, tier := "pro" } "u1" 1700 todayW .ok .ok
    (by decide)
  exact ⟨h.1.trans (by decide), h.2.2 (by decide)⟩

/-- C6: however the backend answers — success, error result, or thrown
exception, independently for the insert and the update — `handlePayNow`
attempts exactly one transaction insert and exactly one profile update,
swallows both failures (no outer error state), and still shows the
payment-instructions toast and schedules the 10-second redirect. -/
theorem payNow_best_effort (uid : String) (p : Plan) (now : Nat)
    (today : JsDate) (insertOut updateOut : DbOutcome) :
    ((handlePayNow (some uid) (some p) now today insertOut
        updateOut).effects.countP PayEffect.isInsert = 1) ∧
    ((handlePayNow (some uid) (some p) now today insertOut
        updateOut).effects.countP PayEffect.isUpdate = 1) ∧
    (handlePayNow (some uid) (some p) now today insertOut
        updateOut).errorShown = none ∧
    PayEffect.toastPaymentInstructions ∈
      (handlePayNow (some uid) (some p) now today insertOut
        updateOut).effects ∧
    PayEffect.scheduleRedirect 10000 ∈
      (handlePayNow (some uid) (some p) now today insertOut
        updateOut).effects := by
  cases insertOut <;> cases updateOut <;>
    simp [handlePayNow, PayEffect.isInsert, PayEffect.isUpdate,
      refreshTailFor, List.countP_cons, List.countP_nil]

/-- Helper: `fetchUserData` commits only `profile`, `isAdmin` and the cache;
`user`, `session` and `isLoading` are untouched on every path (cache hit,
timeout, completed fetch, thrown exception). -/
lemma fetchUserData_frame (s : AuthState) (userId : String)
    (o : FetchOutcome) :
    (fetchUserData s userId o).user = s.user ∧
    (fetchUserData s userId o).session = s.session ∧
    (fetchUserData s userId o).isLoading = s.isLoading := by
  cases hc : s.cache with
  | none =>
    cases o with
    | timeout => simp [fetchUserData, fetchUserDataFresh, hc]
    | thrown => simp [fetchUserData, fetchUserDataFresh, hc]
    | completed pd rd =>
      cases pd <;> simp [fetchUserData, fetchUserDataFresh, hc]
  | some pa =>
    obtain ⟨p, adm⟩ := pa
    by_cases hu : s.user = some userId
    · simp [fetchUserData, fetchUserDataFresh, hc, hu]
    · cases o with
      | timeout => simp [fetchUserData, fetchUserDataFresh, hc, hu]
      | thrown => simp [fetchUserData, fetchUserDataFresh, hc, hu]
      | completed pd rd =>
        cases pd <;> simp [fetchUserData, fetchUserDataFresh, hc, hu]

/-- C7: the profile/role fetch races the combined result of the two parallel
requests against the 5000 ms timeout; `user`, `session` and `isLoading` are
never touched by it, and when the timeout wins (or the fetch throws) on a
cold cache the state is returned completely unchanged, with no error
surfaced. -/
theorem fetchUserData_preserves_auth (s : AuthState) (userId : String)
    (o : FetchOutcome) :
    ((fetchUserData s userId o).user = s.user ∧
     (fetchUserData s userId o).session = s.session ∧
     (fetchUserData s userId o).isLoading = s.isLoading) ∧
    (s.cache = none →
      fetchUserData s userId FetchOutcome.timeout = s ∧
      fetchUserData s userId FetchOutcome.thrown = s) ∧
    fetchTimeoutMs = 5000 := by
  refine ⟨fetchUserData_frame s userId o, fun hc => ⟨?_, ?_⟩, rfl⟩
  · simp [fetchUserData, fetchUserDataFresh, hc]
  · simp [fetchUserData, fetchUserDataFresh, hc]

/-- A signed-out façade state with a cold cache. -/
def authS0 : AuthState :=
  { user := none, session := none, profile := none
    isAdmin := false, isLoading := false, cache := none }

/-- Witness for C7: on the cold-cache state, a timed-out fetch changes
nothing and a completed fetch leaves `user` untouched. -/
theorem fetchUserData_preserves_auth_witness :
    fetchUserData authS0 "u1" FetchOutcome.timeout = authS0 ∧
    (fetchUserData authS0 "u1" (FetchOutcome.completed none true)).user =
      authS0.user :=
  ⟨((fetchUserData_preserves_auth authS0 "u1" FetchOutcome.timeout).2.1
      rfl).1,
   (fetchUserData_preserves_auth authS0 "u1"
      (FetchOutcome.completed none true)).1.1⟩

/-- C8: `signIn` always returns an error value instead of throwing (a thrown
backend exception is caught and surfaced as the returned error); a backend
message containing "Email not confirmed" is rewritten to the user-facing
verification prompt; a message containing "Invalid login" reaches the form
and is displayed as the invalid-credentials text; and on success `signIn`
populates `session` and `user` and triggers the profile fetch for that
user. -/
theorem signIn_error_mapping :
    (∀ (s : AuthState) (msg : String) (fo : FetchOutcome),
      strContains msg "Email not confirmed" = true →
      (signIn s (.failed msg) fo).error =
        some "Please verify your email first. Check your inbox.") ∧
    (∀ (s : AuthState) (msg : String) (fo : FetchOutcome),
      strContains msg "Invalid login" = true →
      strContains msg "Email not confirmed" = false →
      signInApiErrorShown ((signIn s (.failed msg) fo).error) =
        some "Invalid email or password. Please try again.") ∧
    (∀ (s : AuthState) (m : String) (fo : FetchOutcome),
      (signIn s (.thrown m) fo).error = some m) ∧
    (∀ (s : AuthState) (tok uid : String) (fo : FetchOutcome),
      (signIn s (.ok (some (tok, uid))) fo).state.session = some tok ∧
      (signIn s (.ok (some (tok, uid))) fo).state.user = some uid ∧
      (signIn s (.ok (some (tok, uid))) fo).fetchedUserIds = [uid]) := by
  refine ⟨?_, ?_, ?_, ?_⟩
  · intro s msg fo h
    simp [signIn, h]
  · intro s msg fo hInv hNc
    simp [signIn, signInApiErrorShown, hInv, hNc]
  · intro s m fo
    simp [signIn]
  · intro s tok uid fo
    refine ⟨?_, ?_, rfl⟩ <;>
      cases fo with
      | timeout => simp [signIn, fetchUserData, fetchUserDataFresh]
      | thrown => simp [signIn, fetchUserData, fetchUserDataFresh]
      | completed pd rd =>
        cases pd <;> simp [signIn, fetchUserData, fetchUserDataFresh]

/-- Witness for C8 at concrete backend messages and a successful session. -/
theorem signIn_error_mapping_witness :
    (signIn authS0 (.failed "Email not confirmed") FetchOutcome.timeout).error =
        some "Please verify your email first. Check your inbox." ∧
    signInApiErrorShown
        ((signIn authS0 (.failed "Invalid login credentials")
            FetchOutcome.timeout).error) =
        some "Invalid email or password. Please try again." ∧
    (signIn authS0 (.thrown "boom") FetchOutcome.timeout).error =
        some "boom" ∧
    (signIn authS0 (.ok (some ("t1", "u1"))) FetchOutcome.timeout).state.user =
        some "u1" :=
  ⟨signIn_error_mapping.1 authS0 "Email not confirmed" FetchOutcome.timeout
      (by decide),
   signIn_error_mapping.2.1 authS0 "Invalid login credentials"
      FetchOutcome.timeout (by decide) (by decide),
   signIn_error_mapping.2.2.1 authS0 "boom" FetchOutcome.timeout,
   (signIn_error_mapping.2.2.2 authS0 "t1" "u1" FetchOutcome.timeout).2.1⟩

/-- C9: a successful `signIn` call drives `isLoading` through exactly the
trace true, false — one true→false transition — whatever the profile fetch
does (completes, times out after 5 s, or throws) and whether or not the
response carried a session. -/
theorem signIn_loading_transitions_once (s : AuthState)
    (sessionData : Option (String × String)) (fo : FetchOutcome) :
    (signIn s (.ok sessionData) fo).loadingTrace = [true, false] ∧
    downTransitions (signIn s (.ok sessionData) fo).loadingTrace = 1 := by
  rcases sessionData with _ | ⟨tok, uid⟩ <;> exact ⟨rfl, rfl⟩

end SkillBridge
